import Mathlib

/-!
Verification development for the Food-Base storage service
(`Food-Base/food_storage.py` and `Food-Base/database/models.py`).

The service is embedded shallowly: JSON payloads become the inductive
type `JVal`, the SQLite tables become lists of records inside `DB`,
and each service method becomes a pure function from a `DB` (the
committed database state) to a result, a new committed state, and the
list of history rows left pending (added to the SQLAlchemy session but
not committed by the call itself; under the default request teardown
such rows are discarded by the session rollback).
-/

/-- A JSON-like Python value, as received by the service from
`request.get_json()`. -/
inductive JVal where
  | jnull : JVal
  | jbool (b : Bool) : JVal
  | jnum (q : ℚ) : JVal
  | jstr (s : String) : JVal
  | jarr (xs : List JVal) : JVal
  | jobj (fs : List (String × JVal)) : JVal
  deriving Repr

mutual

/-- Structural equality test on `JVal` (deriving `DecidableEq` is not
available for nested inductives, so it is defined by hand). -/
def jvalBeq : JVal → JVal → Bool
  | .jnull, .jnull => true
  | .jbool a, .jbool b => a == b
  | .jnum a, .jnum b => a == b
  | .jstr a, .jstr b => a == b
  | .jarr xs, .jarr ys => jvalBeqList xs ys
  | .jobj fs, .jobj gs => jvalBeqObj fs gs
  | _, _ => false

def jvalBeqList : List JVal → List JVal → Bool
  | [], [] => true
  | x :: xs, y :: ys => jvalBeq x y && jvalBeqList xs ys
  | _, _ => false

def jvalBeqObj : List (String × JVal) → List (String × JVal) → Bool
  | [], [] => true
  | (k, v) :: fs, (l, w) :: gs => k == l && jvalBeq v w && jvalBeqObj fs gs
  | _, _ => false

end

mutual

theorem jvalBeq_iff : ∀ (a b : JVal), jvalBeq a b = true ↔ a = b
  | a, b => by
    cases a <;> cases b <;>
      simp only [jvalBeq] <;>
      try simp
    case jarr.jarr xs ys => exact jvalBeqList_iff xs ys
    case jobj.jobj fs gs => exact jvalBeqObj_iff fs gs

theorem jvalBeqList_iff : ∀ (xs ys : List JVal), jvalBeqList xs ys = true ↔ xs = ys
  | [], [] => by simp [jvalBeqList]
  | [], _ :: _ => by simp [jvalBeqList]
  | _ :: _, [] => by simp [jvalBeqList]
  | x :: xs, y :: ys => by
    simp only [jvalBeqList, Bool.and_eq_true]
    rw [jvalBeq_iff x y, jvalBeqList_iff xs ys]
    simp

theorem jvalBeqObj_iff : ∀ (fs gs : List (String × JVal)),
    jvalBeqObj fs gs = true ↔ fs = gs
  | [], [] => by simp [jvalBeqObj]
  | [], _ :: _ => by simp [jvalBeqObj]
  | _ :: _, [] => by simp [jvalBeqObj]
  | (k, v) :: fs, (l, w) :: gs => by
    simp only [jvalBeqObj, Bool.and_eq_true]
    rw [jvalBeq_iff v w, jvalBeqObj_iff fs gs]
    simp [Prod.ext_iff]

end

instance : DecidableEq JVal := fun a b => decidable_of_iff _ (jvalBeq_iff a b)

namespace JVal

/-- Python truthiness (`bool(v)`) on JSON-like values. -/
def truthy : JVal → Bool
  | .jnull => false
  | .jbool b => b
  | .jnum q => q != 0
  | .jstr s => s ≠ ""
  | .jarr xs => !xs.isEmpty
  | .jobj fs => !fs.isEmpty

/-- Python `d.get(k, default)`: the default is used only when the key is
absent; a key present with value `None` yields `None`. Called on a
non-dict the real code raises; the code paths modelled here only call it
on dicts. -/
def getD : JVal → String → JVal → JVal
  | .jobj fs, k, d => match fs.lookup k with
    | some v => v
    | none => d
  | _, _, d => d

/-- Python `d.get(k)` (default `None`). -/
def get (o : JVal) (k : String) : JVal := o.getD k .jnull

/-- Python `k in d` (key presence, regardless of the stored value). -/
def hasKey : JVal → String → Bool
  | .jobj fs, k => (fs.lookup k).isSome
  | _, _ => false

def isObj : JVal → Bool
  | .jobj _ => true
  | _ => false

end JVal

/-- Python `a or b`: returns `a` when `a` is truthy, else `b`. -/
def pyOr (a b : JVal) : JVal := if a.truthy then a else b

/-- Python `str(v)` on JSON-like values. Only used for the f-string
`f'Nutrient \x7bnutrient_id\x7d'` placeholder name; numeric rendering
approximates Python's (`JVal` does not distinguish int from float). -/
def pyStr : JVal → String
  | .jnull => "None"
  | .jbool b => if b then "True" else "False"
  | .jnum q => if q.den = 1 then toString q.num else toString q
  | .jstr s => s
  | .jarr _ => "[...]"
  | .jobj _ => "\x7b...\x7d"

/-- Decimal digits parser used by `pyFloatOfString`. -/
def parseDigits : List Char → Option ℕ
  | [] => none
  | cs => cs.foldl (fun acc c =>
      match acc with
      | none => none
      | some n => if c.isDigit then some (n * 10 + (c.toNat - '0'.toNat)) else none)
      (some 0)

/-- Python `float(s)` on strings, restricted to plain decimal literals
with an optional sign and fractional part (the general Python grammar
also accepts exponents and named constants; no code path in the claims
feeds those). Returns `none` where Python raises `ValueError`. -/
def pyFloatOfString (s : String) : Option ℚ :=
  let cs := s.toList
  let (neg, cs) := match cs with
    | '-' :: rest => (true, rest)
    | '+' :: rest => (false, rest)
    | _ => (false, cs)
  let intPart := cs.takeWhile (· ≠ '.')
  let rest := cs.dropWhile (· ≠ '.')
  let mk (q : ℚ) : Option ℚ := some (if neg then -q else q)
  match rest with
  | [] =>
    match parseDigits intPart with
    | some n => mk n
    | none => none
  | '.' :: frac =>
    match parseDigits intPart, parseDigits frac with
    | some n, some f => mk (n + (f : ℚ) / ((10 : ℚ) ^ frac.length))
    | _, _ => none
  | _ => none

/-- Python `float(v)`: succeeds on numbers and booleans, on numeric
strings, and raises (`none`) on `None`, lists and dicts. -/
def pyFloat : JVal → Option ℚ
  | .jnum q => some q
  | .jbool b => some (if b then 1 else 0)
  | .jstr s => pyFloatOfString s
  | _ => none

/-- Python `for x in v`: lists iterate their elements, strings their
characters, dicts their keys; other values raise `TypeError` (`none`). -/
def pyIter : JVal → Option (List JVal)
  | .jarr xs => some xs
  | .jstr s => some (s.toList.map fun c => .jstr (String.mk [c]))
  | .jobj fs => some (fs.map fun kv => .jstr kv.1)
  | _ => none

/-! ## Data model (`database/models.py`)

SQLite stores whatever Python value is bound to a column (no strict
typing), so payload-derived columns are kept as `JVal`; `NOT NULL`,
uniqueness and bindability are checked at flush/commit time, mirroring
where SQLite raises. Timestamps (`datetime.utcnow`) are abstracted as a
logical clock `now : Nat` passed to each operation. -/

/-- A row of the `foods` table. -/
structure Food where
  id : Nat
  fdc_id : JVal
  description : JVal
  brand_owner : JVal
  brand_name : JVal
  subbrand_name : JVal
  data_type : JVal
  food_category : JVal
  food_category_id : JVal
  published_date : Option String
  ingredients : JVal
  market_country : JVal
  serving_size : JVal
  serving_size_unit : JVal
  household_serving_fulltext : JVal
  saved_at : Nat
  updated_at : Nat
  raw_data : JVal
  deriving Repr, DecidableEq

/-- A row of the `nutrients` reference table. -/
structure Nutrient where
  id : JVal
  name : JVal
  unit_name : JVal
  nutrient_nbr : JVal
  rank : JVal
  deriving Repr, DecidableEq

/-- A row of the `food_nutrients` junction table. The `amount` column is
`Float, nullable=False` and is always produced by `float(amount)`, so it
is a rational here. -/
structure FoodNutrient where
  food_id : Nat
  nutrient_id : JVal
  amount : ℚ
  data_points : JVal
  derivation_id : JVal
  min_value : JVal
  max_value : JVal
  median_value : JVal
  footnote : JVal
  min_year_acquired : JVal
  deriving Repr, DecidableEq

/-- A row of the `food_portions` table. -/
structure FoodPortion where
  food_id : Nat
  seq_num : JVal
  amount : JVal
  measure_unit_id : JVal
  measure_unit_name : JVal
  measure_unit_abbreviation : JVal
  modifier : JVal
  gram_weight : JVal
  data_points : JVal
  footnote : JVal
  min_year_acquired : JVal
  deriving Repr, DecidableEq

/-- A row of the `search_history` table. -/
structure HistRow where
  search_query : Option String
  food_id : Option Nat
  action : String
  timestamp : Nat
  ip_address : Option String
  deriving Repr, DecidableEq

/-- The committed database state. `next_food_id` models the
autoincrementing primary key handed out at flush time. -/
structure DB where
  foods : List Food
  nutrients : List Nutrient
  food_nutrients : List FoodNutrient
  food_portions : List FoodPortion
  history : List HistRow
  next_food_id : Nat
  deriving Repr, DecidableEq

def DB.empty : DB :=
  { foods := [], nutrients := [], food_nutrients := [], food_portions := []
    history := [], next_food_id := 1 }

/-- Well-formedness of the committed state: distinct external
identifiers (the `unique=True` constraint on `fdc_id`) and distinct
primary keys below the autoincrement counter. -/
def DB.wf (db : DB) : Prop :=
  (db.foods.map (·.fdc_id)).Nodup ∧
  (db.foods.map (·.id)).Nodup ∧
  ∀ f ∈ db.foods, f.id < db.next_food_id

/-- `FoodStorageService._log_search_history`: builds one history row
(the `db.session.add` is modelled by whichever caller appends it). -/
def mkHist (action : String) (search_query : Option String)
    (food_id : Option Nat) (now : Nat) (ip : Option String) : HistRow :=
  { search_query := search_query, food_id := food_id, action := action
    timestamp := now, ip_address := ip }

/-! ## Ingestion (`FoodStorageService.save_food_from_api`) -/

/-- `food_data.get('fdcId') or food_data.get('food_id')`. -/
def resolveFdcId (p : JVal) : JVal := pyOr (p.get "fdcId") (p.get "food_id")

/-- The `published_date` block of `_create_food_from_api_data`:
`if food_data.get('publishedDate'):` then, inside a bare
`try/except: pass`, `fromisoformat(v.replace('Z', '+00:00')).date()`.
The external `datetime.fromisoformat` parser is abstracted as the
parameter `pd` (returning `none` where Python raises). -/
def parsePublished (pd : String → Option String) (v : JVal) : Option String :=
  if v.truthy then
    match v with
    | .jstr s => pd (s.replace "Z" "+00:00")
    | _ => none
  else none

/-- `_create_food_from_api_data`, field by field. `raw_data` stores the
whole payload (the code keeps `json.dumps(food_data)`, a faithful
serialization). `saved_at`/`updated_at` take their `datetime.utcnow`
column defaults at insert time. -/
def createFoodFromApiData (pd : String → Option String) (now fid : Nat)
    (p : JVal) : Food :=
  { id := fid
    fdc_id := pyOr (p.get "fdcId") (p.get "food_id")
    description := pyOr (p.get "description") (p.getD "name" (.jstr "Unknown Food"))
    brand_owner := pyOr (pyOr (p.get "brandOwner") (p.get "brand_owner")) (p.get "brand")
    brand_name := p.get "brandName"
    subbrand_name := p.get "subbrandName"
    data_type := pyOr (p.get "dataType") (p.getD "data_type" (.jstr "Unknown"))
    food_category :=
      match p.get "foodCategory" with
      | .jobj fs => (JVal.jobj fs).get "description"
      | _ => p.get "foodCategory"
    food_category_id :=
      match p.get "foodCategory" with
      | .jobj fs => (JVal.jobj fs).get "id"
      | _ => p.get "foodCategoryId"
    published_date := parsePublished pd (p.get "publishedDate")
    ingredients := p.get "ingredients"
    market_country := p.get "marketCountry"
    serving_size := p.get "serving_size"
    serving_size_unit := p.get "serving_unit"
    household_serving_fulltext := p.get "householdServingFullText"
    saved_at := now
    updated_at := now
    raw_data := p }

/-- The resolved nutrient-info dict of one entry:
`nutrient_data.get('nutrient', {})`. -/
def nutrientInfo (e : JVal) : JVal := e.getD "nutrient" (.jobj [])

/-- `nutrient_info.get('id') or nutrient_data.get('nutrientId')`. -/
def resolveNutrientId (e : JVal) : JVal :=
  pyOr ((nutrientInfo e).get "id") (e.get "nutrientId")

/-- `nutrient_data.get('amount') or nutrient_data.get('value')`. -/
def resolveAmount (e : JVal) : JVal :=
  pyOr (e.get "amount") (e.get "value")

/-- The skip test of `_save_nutrients`:
`if not nutrient_id or amount is None: continue`. -/
def nutrientEntrySkipped (e : JVal) : Bool :=
  !(resolveNutrientId e).truthy || resolveAmount e == .jnull

/-- The `Nutrient` row built by `_ensure_nutrient_exists` when the id is
not present in the reference table. -/
def mkNutrient (nid : JVal) (info : JVal) : Nutrient :=
  { id := nid
    name := info.getD "name" (.jstr ("Nutrient " ++ pyStr nid))
    unit_name := info.getD "unitName" (.jstr "")
    nutrient_nbr := info.get "number"
    rank := info.get "rank" }

/-- The `FoodNutrient` row built for a kept entry with converted
amount `q`. -/
def mkFoodNutrient (fid : Nat) (nid : JVal) (q : ℚ) (e : JVal) : FoodNutrient :=
  { food_id := fid
    nutrient_id := nid
    amount := q
    data_points := e.get "dataPoints"
    derivation_id := e.get "derivationId"
    min_value := e.get "min"
    max_value := e.get "max"
    median_value := e.get "median"
    footnote := e.get "footnote"
    min_year_acquired := e.get "minYearAcquired" }

/-- The loop of `_save_nutrients`. `allN` is the nutrient reference
table as visible to `Nutrient.query.get` (committed rows plus rows
already added in this session, which autoflush makes visible); `news`
and `fns` accumulate the session's new `Nutrient` and `FoodNutrient`
rows. `none` models an exception escaping the loop (a non-dict entry or
nutrient info raising `AttributeError`, or `float(amount)` raising). -/
def saveNutrientsLoop (fid : Nat) :
    List Nutrient → List Nutrient → List FoodNutrient → List JVal →
    Option (List Nutrient × List FoodNutrient)
  | _, news, fns, [] => some (news, fns)
  | allN, news, fns, e :: es =>
    match e with
    | .jobj _ =>
      match nutrientInfo e with
      | .jobj _ =>
        if nutrientEntrySkipped e then saveNutrientsLoop fid allN news fns es
        else
          let nid := resolveNutrientId e
          let newNs :=
            if (allN.find? (fun n => n.id == nid)).isSome then []
            else [mkNutrient nid (nutrientInfo e)]
          match pyFloat (resolveAmount e) with
          | none => none
          | some q =>
            saveNutrientsLoop fid (allN ++ newNs) (news ++ newNs)
              (fns ++ [mkFoodNutrient fid nid q e]) es
      | _ => none
    | _ => none

/-- `_save_nutrients`: iterate `food_data.get('foodNutrients', [])`. -/
def saveNutrients (allN : List Nutrient) (fid : Nat) (p : JVal) :
    Option (List Nutrient × List FoodNutrient) :=
  match pyIter (p.getD "foodNutrients" (.jarr [])) with
  | none => none
  | some es => saveNutrientsLoop fid allN [] [] es

/-- The `FoodPortion` row built for one portion entry. -/
def mkPortion (fid : Nat) (e : JVal) : FoodPortion :=
  { food_id := fid
    seq_num := e.get "sequenceNumber"
    amount := e.getD "amount" (.jnum 1)
    measure_unit_id := e.get "measureUnitId"
    measure_unit_name := e.get "measureUnitName"
    measure_unit_abbreviation := e.get "measureUnitAbbreviation"
    modifier := e.get "modifier"
    gram_weight := e.getD "gramWeight" (.jnum 100)
    data_points := e.get "dataPoints"
    footnote := e.get "footnote"
    min_year_acquired := e.get "minYearAcquired" }

/-- `_save_portions`: iterate `food_data.get('foodPortions', [])`;
non-dict entries raise (`none`). -/
def savePortions (fid : Nat) (p : JVal) : Option (List FoodPortion) :=
  match pyIter (p.getD "foodPortions" (.jarr [])) with
  | none => none
  | some es =>
    if es.all (·.isObj) then some (es.map (mkPortion fid)) else none

/-- A value bindable to an ordinary SQLite column (lists and dicts make
the driver raise `InterfaceError`, caught by the generic handler). -/
def scalarOk : JVal → Bool
  | .jarr _ => false
  | .jobj _ => false
  | _ => true

/-- Bind-time check for the new `Food` row's payload-derived columns. -/
def foodBindOk (f : Food) : Bool :=
  scalarOk f.fdc_id && scalarOk f.description && scalarOk f.brand_owner &&
  scalarOk f.brand_name && scalarOk f.subbrand_name && scalarOk f.data_type &&
  scalarOk f.food_category && scalarOk f.food_category_id &&
  scalarOk f.ingredients && scalarOk f.market_country &&
  scalarOk f.serving_size && scalarOk f.serving_size_unit &&
  scalarOk f.household_serving_fulltext

/-- Flush-time integrity constraints on the new `Food` row: `NOT NULL`
on `fdc_id`, `description`, `data_type`, and uniqueness of `fdc_id`
against the committed table. -/
def foodConstraintsOk (db : DB) (f : Food) : Bool :=
  f.fdc_id != .jnull && f.description != .jnull && f.data_type != .jnull &&
  db.foods.all (fun g => g.fdc_id != f.fdc_id)

def nutrientBindOk (n : Nutrient) : Bool :=
  scalarOk n.id && scalarOk n.name && scalarOk n.unit_name &&
  scalarOk n.nutrient_nbr && scalarOk n.rank

/-- `NOT NULL` on `nutrients.name` and `nutrients.unit_name`. -/
def nutrientConstraintsOk (n : Nutrient) : Bool :=
  n.id != .jnull && n.name != .jnull && n.unit_name != .jnull

def foodNutrientBindOk (fn : FoodNutrient) : Bool :=
  scalarOk fn.nutrient_id && scalarOk fn.data_points &&
  scalarOk fn.derivation_id && scalarOk fn.min_value && scalarOk fn.max_value &&
  scalarOk fn.median_value && scalarOk fn.footnote && scalarOk fn.min_year_acquired

def portionBindOk (pt : FoodPortion) : Bool :=
  scalarOk pt.seq_num && scalarOk pt.amount && scalarOk pt.measure_unit_id &&
  scalarOk pt.measure_unit_name && scalarOk pt.measure_unit_abbreviation &&
  scalarOk pt.modifier && scalarOk pt.gram_weight && scalarOk pt.data_points &&
  scalarOk pt.footnote && scalarOk pt.min_year_acquired

/-- `NOT NULL` on `food_portions.amount` and `food_portions.gram_weight`. -/
def portionConstraintsOk (pt : FoodPortion) : Bool :=
  pt.amount != .jnull && pt.gram_weight != .jnull

/-- The `UniqueConstraint('food_id', 'nutrient_id')` over the new
association rows (they all carry the fresh food id, so only pairwise
distinctness of the nutrient ids matters). -/
def fnsUnique : List FoodNutrient → Bool
  | [] => true
  | fn :: rest => rest.all (fun g => g.nutrient_id != fn.nutrient_id) && fnsUnique rest

/-- Result of `save_food_from_api`: the error dicts (validation,
`IntegrityError` handler, generic handler), the duplicate response and
the success response. The `food` dict of the response is the canonical
representation of the carried row (a function of the row and the
returned state, so carrying the row loses nothing). -/
inductive SaveResult where
  | errNoFdcId : SaveResult
  | errIntegrity : SaveResult
  | errFailed : SaveResult
  | dup (f : Food) : SaveResult
  | saved (f : Food) : SaveResult
  deriving Repr, DecidableEq

def SaveResult.isError : SaveResult → Bool
  | .errNoFdcId | .errIntegrity | .errFailed => true
  | _ => false

/-- `FoodStorageService.save_food_from_api`. Returns the response, the
committed database state after the call, and the history rows the call
leaves pending in the session (both the `duplicate_save` and the `save`
rows are added after the last commit of the call, so the call itself
never commits them). -/
def save_food_from_api (pd : String → Option String) (now : Nat) (db : DB)
    (p : JVal) (ip : Option String) : SaveResult × DB × List HistRow :=
  match p with
  | .jobj _ =>
    let fdc := resolveFdcId p
    if ¬ fdc.truthy then (.errNoFdcId, db, [])
    else
      match db.foods.find? (fun f => f.fdc_id == fdc) with
      | some f => (.dup f, db, [mkHist "duplicate_save" none (some f.id) now ip])
      | none =>
        let food := createFoodFromApiData pd now db.next_food_id p
        -- `db.session.flush()` issues the INSERT for the food row.
        if ¬ foodBindOk food then (.errFailed, db, [])
        else if ¬ foodConstraintsOk db food then (.errIntegrity, db, [])
        else
          match saveNutrients db.nutrients food.id p with
          | none => (.errFailed, db, [])
          | some (news, fns) =>
            match savePortions food.id p with
            | none => (.errFailed, db, [])
            | some ports =>
              -- `db.session.commit()` flushes the remaining rows and
              -- checks their constraints.
              if ¬ (news.all nutrientBindOk && fns.all foodNutrientBindOk &&
                    ports.all portionBindOk) then (.errFailed, db, [])
              else if ¬ (news.all nutrientConstraintsOk && fnsUnique fns &&
                    ports.all portionConstraintsOk) then (.errIntegrity, db, [])
              else
                (.saved food,
                 { foods := db.foods ++ [food]
                   nutrients := db.nutrients ++ news
                   food_nutrients := db.food_nutrients ++ fns
                   food_portions := db.food_portions ++ ports
                   history := db.history
                   next_food_id := db.next_food_id + 1 },
                 [mkHist "save" none (some food.id) now ip])
  | _ => (.errFailed, db, [])

/-! ## Query and update operations -/

/-- Descending insertion by `saved_at`, realizing
`order_by(Food.saved_at.desc())` (ties in unspecified SQL order; this
model keeps earlier table rows first). -/
def insertBySavedDesc (f : Food) : List Food → List Food
  | [] => [f]
  | g :: gs => if g.saved_at < f.saved_at then f :: g :: gs
               else g :: insertBySavedDesc f gs

def orderBySavedDesc (fs : List Food) : List Food :=
  fs.foldr insertBySavedDesc []

/-- `FoodStorageService.get_all_foods`: order by `saved_at` descending,
then SQL `LIMIT`/`OFFSET`; the Python guards `if limit:`/`if offset:`
skip falsy values (`None` and `0`). -/
def get_all_foods (db : DB) (limit offset : Option Nat) : List Food :=
  let sorted := orderBySavedDesc db.foods
  let afterOff := match offset with
    | some o => if o ≠ 0 then sorted.drop o else sorted
    | none => sorted
  match limit with
  | some l => if l ≠ 0 then afterOff.take l else afterOff
  | none => afterOff

/-- `FoodStorageService.get_food_by_id`. -/
def get_food_by_id (db : DB) (fid : Nat) : Option Food :=
  db.foods.find? (fun f => f.id == fid)

/-- `FoodStorageService.get_food_by_fdc_id`. -/
def get_food_by_fdc_id (db : DB) (fdc : JVal) : Option Food :=
  db.foods.find? (fun f => f.fdc_id == fdc)

/-- SQL `LIKE` pattern matching over characters: `%` matches any
sequence, `_` any single character, anything else itself. -/
def likeMatch : List Char → List Char → Bool
  | [], t => t.isEmpty
  | c :: ps, t =>
    if c = '%' then t.tails.any (likeMatch ps)
    else
      match t with
      | [] => false
      | d :: ts => (if c = '_' then true else c == d) && likeMatch ps ts

/-- ASCII lowering of a string to its character list (SQLite `LIKE` is
case-insensitive for ASCII only, which `Char.toLower` matches). -/
def lowerChars (s : String) : List Char := s.toList.map Char.toLower

/-- `column.ilike(f'%\x7bquery\x7d%')` on one stored value: `NULL`
never matches; non-text scalars are matched via their text rendering. -/
def ilikeContains (q : String) (v : JVal) : Bool :=
  match v with
  | .jnull => false
  | .jstr s => likeMatch ('%' :: lowerChars q ++ ['%']) (lowerChars s)
  | w => likeMatch ('%' :: lowerChars q ++ ['%']) (lowerChars (pyStr w))

/-- The filter of `search_foods`:
`Food.description.ilike(...) | Food.brand_owner.ilike(...)`. -/
def searchMatch (q : String) (f : Food) : Bool :=
  ilikeContains q f.description || ilikeContains q f.brand_owner

/-- `FoodStorageService.search_foods`. An empty query degrades to
`get_all_foods`; otherwise a `search` history row is added to the
session (never committed by this call) and the filtered rows are
returned in table order, truncated by `limit`. -/
def search_foods (now : Nat) (db : DB) (q : String) (limit : Nat) :
    List Food × DB × List HistRow :=
  if q = "" then (get_all_foods db (some limit) none, db, [])
  else
    ((db.foods.filter (searchMatch q)).take limit, db,
     [mkHist "search" (some q) none now none])

/-- The allow-list of `update_food`, in source order. -/
def allowedFields : List String :=
  ["description", "brand_owner", "brand_name", "subbrand_name",
   "ingredients", "market_country", "serving_size", "serving_size_unit"]

/-- The `setattr` loop of `update_food` over the allow-list: each
allowed field present in the input (key presence, `if field in
update_data`) is overwritten with the input value. -/
def applyUpdate (f : Food) (upd : JVal) : Food :=
  { f with
    description := if upd.hasKey "description" then upd.get "description" else f.description
    brand_owner := if upd.hasKey "brand_owner" then upd.get "brand_owner" else f.brand_owner
    brand_name := if upd.hasKey "brand_name" then upd.get "brand_name" else f.brand_name
    subbrand_name := if upd.hasKey "subbrand_name" then upd.get "subbrand_name" else f.subbrand_name
    ingredients := if upd.hasKey "ingredients" then upd.get "ingredients" else f.ingredients
    market_country := if upd.hasKey "market_country" then upd.get "market_country" else f.market_country
    serving_size := if upd.hasKey "serving_size" then upd.get "serving_size" else f.serving_size
    serving_size_unit := if upd.hasKey "serving_size_unit" then upd.get "serving_size_unit" else f.serving_size_unit }

/-- The in-memory food object after the `setattr` loop and the
`updated_at` stamp of `update_food`. -/
def updatedFood (now : Nat) (f : Food) (upd : JVal) : Food :=
  { applyUpdate f upd with updated_at := now }

/-- Result of `update_food`: `'Food not found'`, `'No valid fields to
update'`, the generic `'Failed to update food'` handler, or success with
the `updated_fields` list and the updated row. -/
inductive UpdateResult where
  | errNotFound : UpdateResult
  | errNoFields : UpdateResult
  | errFailed : UpdateResult
  | ok (updated_fields : List String) (f : Food) : UpdateResult
  deriving Repr, DecidableEq

def UpdateResult.isOk : UpdateResult → Bool
  | .ok _ _ => true
  | _ => false

/-- `FoodStorageService.update_food`. On success the `update` history
row is added before `db.session.commit()`, so it is committed together
with the field changes; error paths leave the database unchanged.
Non-dict inputs mirror Python: a list or string input answers the
membership tests (`field in update_data`), and the first successful one
raises `TypeError` at the `update_data[field]` subscript; other
non-dict inputs raise at the first membership test. -/
def update_food (now : Nat) (db : DB) (fid : Nat) (upd : JVal) :
    UpdateResult × DB × List HistRow :=
  match db.foods.find? (fun f => f.id == fid) with
  | none => (.errNotFound, db, [])
  | some f =>
    match upd with
    | .jobj _ =>
      let updated := allowedFields.filter (fun k => upd.hasKey k)
      if updated.isEmpty then (.errNoFields, db, [])
      else
        let f' := updatedFood now f upd
        if foodBindOk f' && f'.description != .jnull then
          (.ok updated f',
           { db with
             foods := db.foods.map (fun g => if g.id == fid then f' else g)
             history := db.history ++ [mkHist "update" none (some fid) now none] },
           [])
        else (.errFailed, db, [])
    | .jarr xs =>
      if allowedFields.any (fun k => xs.contains (.jstr k)) then (.errFailed, db, [])
      else (.errNoFields, db, [])
    | .jstr s =>
      if allowedFields.any (fun k => decide (List.IsInfix k.toList s.toList)) then (.errFailed, db, [])
      else (.errNoFields, db, [])
    | _ => (.errFailed, db, [])

/-! ## Statistics (`FoodStorageService.get_database_stats`) -/

/-- The stats response dict. -/
structure StatsResult where
  total_foods : Nat
  unique_brands : Nat
  data_types : Nat
  last_saved : Option Nat
  error : Option String
  deriving Repr, DecidableEq

/-- `get_database_stats`. The `try` block's aggregate queries are
modelled by the `Except` input: `.ok db` is the state they successfully
read, `.error e` an exception raised by any of them, answered by the
`except` handler with zeroed counts and an embedded error message.
Distinct counts follow `query(col).distinct().count()`, which counts
`NULL` as a value; `last_saved` is the `saved_at` of the first row by
`saved_at` descending, or `None` for an empty table. -/
def get_database_stats : Except String DB → StatsResult
  | .ok db =>
    { total_foods := db.foods.length
      unique_brands := (db.foods.map (·.brand_owner)).dedup.length
      data_types := (db.foods.map (·.data_type)).dedup.length
      last_saved := ((orderBySavedDesc db.foods).head?).map (·.saved_at)
      error := none }
  | .error e =>
    { total_foods := 0, unique_brands := 0, data_types := 0
      last_saved := none, error := some e }

/-- Whether a payload value is a JSON number. -/
def JVal.isNum : JVal → Bool
  | .jnum _ => true
  | _ => false

/-- Claim C6's literal reading of a nutrient entry that "has both a
nutrient identifier and a numeric amount": the resolved identifier is
truthy and a JSON number sits under the `amount` or the `value` key. -/
def entryHasIdAndNumericAmount (e : JVal) : Bool :=
  (resolveNutrientId e).truthy &&
    ((e.get "amount").isNum || (e.get "value").isNum)

/-- A nutrient entry referencing nutrient 1008 with amount `a`. -/
def nutrientEntry1008 (a : ℚ) : JVal :=
  .jobj [("nutrient", .jobj [("id", .jnum 1008),
                             ("name", .jstr "Energy"),
                             ("unitName", .jstr "kcal")]),
         ("amount", .jnum a)]

/-- A payload with external id `n` and a single nutrient entry for
nutrient 1008 carrying amount `a` (description and data type left to
their ingestion defaults). -/
def nutrientPayload (n a : ℚ) : JVal :=
  .jobj [("fdcId", .jnum n), ("foodNutrients", .jarr [nutrientEntry1008 a])]

/-- A nutrient entry holding the numeric amount `0` under the `amount`
key (and no `value` key), with nutrient id 5. -/
def zeroAmountEntry : JVal :=
  .jobj [("nutrient", .jobj [("id", .jnum 5), ("name", .jstr "Sugar"),
                             ("unitName", .jstr "g")]),
         ("amount", .jnum 0)]

/-- A payload whose single nutrient entry is `zeroAmountEntry`. -/
def zeroAmountPayload : JVal :=
  .jobj [("fdcId", .jnum 1), ("foodNutrients", .jarr [zeroAmountEntry])]

/-- The spec's partial-tolerance example: one entry missing an amount
and one valid entry. -/
def partialPayload : JVal :=
  .jobj [("fdcId", .jnum 2),
         ("foodNutrients", .jarr
           [.jobj [("nutrient", .jobj [("id", .jnum 1003),
                                       ("name", .jstr "Protein")])],
            .jobj [("nutrient", .jobj [("id", .jnum 1008),
                                       ("name", .jstr "Energy"),
                                       ("unitName", .jstr "kcal")]),
                   ("amount", .jnum 52)]])]

/-! ## Shared sample data and helper lemmas -/

/-- A concrete stored food row used by witnesses. -/
def sampleFood : Food :=
  { id := 1, fdc_id := .jnum 42, description := .jstr "Organic Whole Milk"
    brand_owner := .jstr "Acme Dairy", brand_name := .jnull
    subbrand_name := .jnull, data_type := .jstr "Branded"
    food_category := .jnull, food_category_id := .jnull
    published_date := none, ingredients := .jnull, market_country := .jnull
    serving_size := .jnull, serving_size_unit := .jnull
    household_serving_fulltext := .jnull, saved_at := 3, updated_at := 3
    raw_data := .jnull }

/-- A concrete committed database with one stored food and no history. -/
def sampleDB : DB :=
  { foods := [sampleFood], nutrients := [], food_nutrients := []
    food_portions := [], history := [], next_food_id := 2 }

theorem sampleDB_wf : sampleDB.wf := by
  refine ⟨?_, ?_, ?_⟩ <;> simp [sampleDB, sampleFood, DB.wf]

/-- In a list whose `g`-image has no duplicates, a successful `find?` on
`g · == v` means exactly one element maps to `v`. -/
theorem filter_length_eq_one_of_find {α β : Type} [DecidableEq β]
    (l : List α) (g : α → β) (v : β) (f : α)
    (hnd : (l.map g).Nodup) (hf : l.find? (fun x => g x == v) = some f) :
    (l.filter (fun x => g x == v)).length = 1 := by
  induction l with
  | nil => simp at hf
  | cons x xs ih =>
    simp only [List.map_cons, List.nodup_cons, List.mem_map] at hnd
    by_cases hx : g x == v
    · have hgx : g x = v := by simpa using hx
      have hrest : xs.filter (fun y => g y == v) = [] := by
        refine List.filter_eq_nil_iff.mpr ?_
        intro y hy hyv
        exact hnd.1 ⟨y, hy, by simpa [hgx] using hyv⟩
      simp [List.filter_cons, hx, hrest]
    · have hfind : xs.find? (fun y => g y == v) = some f := by
        simpa [List.find?_cons, hx] using hf
      have := ih hnd.2 hfind
      simp [List.filter_cons, hx, this]

/-! ## Claim C2 -/

/-- C2: for every payload from which no external identifier can be
resolved through `fdcId` with fallback `food_id` (the resolved value is
not truthy), `save_food_from_api` returns an error result — the
`'No FDC ID found in food data'` input-validation error whenever the
payload is a dict — performs no mutation of the committed state, and
leaves no pending history row, so zero Food, Nutrient, association,
portion and history rows are created. -/
theorem C2_no_identifier_error (pd : String → Option String) (now : Nat)
    (db : DB) (p : JVal) (ip : Option String)
    (h : (resolveFdcId p).truthy = false) :
    (save_food_from_api pd now db p ip).2.1 = db ∧
    (save_food_from_api pd now db p ip).2.2 = [] ∧
    (save_food_from_api pd now db p ip).1.isError = true ∧
    (p.isObj = true → (save_food_from_api pd now db p ip).1 = .errNoFdcId) := by
  cases p <;>
    simp_all [save_food_from_api, SaveResult.isError, JVal.isObj]

theorem C2_no_identifier_error_witness :
    (resolveFdcId (JVal.jobj [("description", .jstr "n")])).truthy = false ∧
    (save_food_from_api (fun _ => none) 0 DB.empty
      (JVal.jobj [("description", .jstr "n")]) none).2.1 = DB.empty ∧
    (save_food_from_api (fun _ => none) 0 DB.empty
      (JVal.jobj [("description", .jstr "n")]) none).1 = .errNoFdcId := by
  have h : (resolveFdcId (JVal.jobj [("description", .jstr "n")])).truthy = false := by
    decide
  have := C2_no_identifier_error (fun _ => none) 0 DB.empty
    (JVal.jobj [("description", .jstr "n")]) none h
  exact ⟨h, this.1, this.2.2.2 (by decide)⟩

/-! ## Claim C9 -/

/-- C9: a falsy external identifier is treated as absent. A payload
whose `fdcId` field holds `0` (with `food_id` absent, null, or also
`0`), or whose `fdcId` is missing/null while `food_id` holds `0`,
makes `save_food_from_api` return the missing-identifier error and
create no rows, even though a numeric identifier value is present. -/
theorem C9_zero_identifier_treated_as_absent (pd : String → Option String)
    (now : Nat) (db : DB) (p : JVal) (ip : Option String)
    (h : (p.get "fdcId" = .jnum 0 ∧
            (p.get "food_id" = .jnull ∨ p.get "food_id" = .jnum 0)) ∨
         (p.get "fdcId" = .jnull ∧ p.get "food_id" = .jnum 0)) :
    save_food_from_api pd now db p ip = (.errNoFdcId, db, []) := by
  have hobj : ∃ fs, p = JVal.jobj fs := by
    cases p
    case jobj fs => exact ⟨fs, rfl⟩
    all_goals rcases h with ⟨h1, -⟩ | ⟨-, h2⟩ <;>
      first
        | simp [JVal.get, JVal.getD] at h1
        | simp [JVal.get, JVal.getD] at h2
  obtain ⟨fs, rfl⟩ := hobj
  have hres : (resolveFdcId (JVal.jobj fs)).truthy = false := by
    rcases h with ⟨h1, h2 | h2⟩ | ⟨h1, h2⟩ <;>
      simp [resolveFdcId, pyOr, h1, h2, JVal.truthy]
  simp [save_food_from_api, hres]

theorem C9_zero_identifier_treated_as_absent_witness :
    ((JVal.jobj [("fdcId", .jnum 0)]).get "fdcId" = .jnum 0 ∧
      (JVal.jobj [("fdcId", .jnum 0)]).get "food_id" = .jnull) ∧
    save_food_from_api (fun _ => none) 0 sampleDB
      (JVal.jobj [("fdcId", .jnum 0)]) none = (.errNoFdcId, sampleDB, []) := by
  refine ⟨⟨by decide, by decide⟩, ?_⟩
  exact C9_zero_identifier_treated_as_absent (fun _ => none) 0 sampleDB
    (JVal.jobj [("fdcId", .jnum 0)]) none (Or.inl ⟨by decide, Or.inl (by decide)⟩)

/-! ## Claim C1 -/

/-- C1: ingestion is idempotent in the external identifier. When the
resolved identifier of the payload matches a stored Food, the call
returns that Food (whose canonical representation `to_dict` is a
function of the row and the returned state) flagged as a duplicate, the
committed state is completely unchanged — so every field of the
existing Food is unchanged and, by uniqueness of `fdc_id`, exactly one
Food row exists for that identifier afterwards — and the only
additional effect is the single `duplicate_save` history entry the call
leaves in the session. -/
theorem C1_duplicate_ingest_is_noop (pd : String → Option String) (now : Nat)
    (db : DB) (p : JVal) (ip : Option String) (f : Food)
    (hwf : db.wf)
    (htruthy : (resolveFdcId p).truthy = true)
    (hfind : db.foods.find? (fun g => g.fdc_id == resolveFdcId p) = some f) :
    save_food_from_api pd now db p ip =
      (.dup f, db, [mkHist "duplicate_save" none (some f.id) now ip]) ∧
    (db.foods.filter (fun g => g.fdc_id == resolveFdcId p)).length = 1 := by
  have hobj : ∃ fs, p = JVal.jobj fs := by
    cases p
    case jobj fs => exact ⟨fs, rfl⟩
    all_goals simp [resolveFdcId, JVal.get, JVal.getD, pyOr, JVal.truthy] at htruthy
  obtain ⟨fs, rfl⟩ := hobj
  refine ⟨?_, filter_length_eq_one_of_find _ _ _ _ hwf.1 hfind⟩
  simp [save_food_from_api, htruthy, hfind, mkHist]

theorem C1_duplicate_ingest_is_noop_witness :
    sampleDB.wf ∧
    (resolveFdcId (JVal.jobj [("fdcId", .jnum 42)])).truthy = true ∧
    sampleDB.foods.find?
      (fun g => g.fdc_id == resolveFdcId (JVal.jobj [("fdcId", .jnum 42)])) =
      some sampleFood ∧
    save_food_from_api (fun _ => none) 7 sampleDB
        (JVal.jobj [("fdcId", .jnum 42)]) (some "9.9.9.9") =
      (.dup sampleFood, sampleDB,
       [mkHist "duplicate_save" none (some sampleFood.id) 7 (some "9.9.9.9")]) ∧
    (sampleDB.foods.filter
      (fun g => g.fdc_id == resolveFdcId (JVal.jobj [("fdcId", .jnum 42)]))).length = 1 := by
  have h := C1_duplicate_ingest_is_noop (fun _ => none) 7 sampleDB
    (JVal.jobj [("fdcId", .jnum 42)]) (some "9.9.9.9") sampleFood
    sampleDB_wf (by decide) (by decide)
  exact ⟨sampleDB_wf, by decide, by decide, h.1, h.2⟩

/-! ## Claim C10 -/

/-- A key absent from an object means its association-list lookup is
`none`. -/
theorem lookup_eq_none_of_hasKey_false (fs : List (String × JVal)) (k : String)
    (h : (JVal.jobj fs).hasKey k = false) : fs.lookup k = none := by
  cases hl : fs.lookup k with
  | none => rfl
  | some v => simp [JVal.hasKey, hl] at h

/-- C10: ingestion defaults the required columns. For a dict payload
with neither a `description` nor a `name` key, the constructed Food row
has description `"Unknown Food"`; with neither a `dataType` nor a
`data_type` key it has data_type `"Unknown"`; in both cases the value
is non-null, so the `NOT NULL` constraints on these columns are
satisfied and ingestion cannot fail for lack of them. -/
theorem C10_required_fields_defaulted (pd : String → Option String)
    (now fid : Nat) (fs : List (String × JVal)) :
    ((JVal.jobj fs).hasKey "description" = false →
     (JVal.jobj fs).hasKey "name" = false →
      (createFoodFromApiData pd now fid (.jobj fs)).description =
        .jstr "Unknown Food" ∧
      ((createFoodFromApiData pd now fid (.jobj fs)).description != .jnull) = true) ∧
    ((JVal.jobj fs).hasKey "dataType" = false →
     (JVal.jobj fs).hasKey "data_type" = false →
      (createFoodFromApiData pd now fid (.jobj fs)).data_type =
        .jstr "Unknown" ∧
      ((createFoodFromApiData pd now fid (.jobj fs)).data_type != .jnull) = true) := by
  constructor
  · intro h1 h2
    have l1 := lookup_eq_none_of_hasKey_false fs "description" h1
    have l2 := lookup_eq_none_of_hasKey_false fs "name" h2
    simp [createFoodFromApiData, JVal.get, JVal.getD, l1, l2, pyOr, JVal.truthy]
  · intro h1 h2
    have l1 := lookup_eq_none_of_hasKey_false fs "dataType" h1
    have l2 := lookup_eq_none_of_hasKey_false fs "data_type" h2
    simp [createFoodFromApiData, JVal.get, JVal.getD, l1, l2, pyOr, JVal.truthy]

theorem C10_required_fields_defaulted_witness :
    (JVal.jobj [("fdcId", JVal.jnum 9)]).hasKey "description" = false ∧
    (JVal.jobj [("fdcId", JVal.jnum 9)]).hasKey "name" = false ∧
    (JVal.jobj [("fdcId", JVal.jnum 9)]).hasKey "dataType" = false ∧
    (JVal.jobj [("fdcId", JVal.jnum 9)]).hasKey "data_type" = false ∧
    (createFoodFromApiData (fun _ => none) 0 1
      (.jobj [("fdcId", JVal.jnum 9)])).description = .jstr "Unknown Food" ∧
    (createFoodFromApiData (fun _ => none) 0 1
      (.jobj [("fdcId", JVal.jnum 9)])).data_type = .jstr "Unknown" := by
  have h := C10_required_fields_defaulted (fun _ => none) 0 1
    [("fdcId", JVal.jnum 9)]
  exact ⟨by decide, by decide, by decide, by decide,
    (h.1 (by decide) (by decide)).1, (h.2 (by decide) (by decide)).1⟩

/-! ## Claim C5 (corrected) -/

/-- C5 as stated is false: a non-empty search leaves the committed
history unchanged. On the concrete one-food database `sampleDB`, the
query `"milk"` is non-empty and matches the stored food, yet after the
call the committed state — including its (empty) history — is exactly
`sampleDB`: no `search` history row was persisted; the single row
produced is only left pending in the session. -/
theorem C5_search_history_counterexample :
    ("milk" ≠ "") ∧
    (search_foods 5 sampleDB "milk" 50).1.length = 1 ∧
    (search_foods 5 sampleDB "milk" 50).2.1 = sampleDB ∧
    (search_foods 5 sampleDB "milk" 50).2.1.history = [] := by
  refine ⟨by decide, by decide, ?_, ?_⟩ <;> decide

/-- C5 amended: for every non-empty query, `search_foods` adds exactly
one history row with action `search` recording that query to the
session — but never commits it (the committed state is unchanged; the
row is persisted only if a later operation commits the session, and
under the default request teardown it is discarded) — and for an empty
query no search history row is produced at all. -/
theorem C5_search_history_pending_only (now : Nat) (db : DB) (q : String)
    (limit : Nat) :
    (q ≠ "" →
      (search_foods now db q limit).2.1 = db ∧
      (search_foods now db q limit).2.2 =
        [mkHist "search" (some q) none now none]) ∧
    (q = "" →
      (search_foods now db q limit).2.1 = db ∧
      (search_foods now db q limit).2.2 = []) := by
  constructor
  · intro hq
    simp [search_foods, hq]
  · intro hq
    simp [search_foods, hq]

theorem C5_search_history_pending_only_witness :
    ("milk" ≠ "") ∧
    (search_foods 5 sampleDB "milk" 50).2.1 = sampleDB ∧
    (search_foods 5 sampleDB "milk" 50).2.2 =
      [mkHist "search" (some "milk") none 5 none] := by
  have h := (C5_search_history_pending_only 5 sampleDB "milk" 50).1 (by decide)
  exact ⟨by decide, h.1, h.2⟩

/-! ## Claim C7 -/

/-- A trailing `%` absorbs any suffix appended after a matching text. -/
theorem likeMatch_append_percent :
    ∀ (q suf : List Char), likeMatch (q ++ ['%']) (q ++ suf) = true := by
  intro q
  induction q with
  | nil =>
    intro suf
    simp only [List.nil_append, likeMatch, if_pos rfl]
    refine List.any_eq_true.mpr ⟨[], ?_, by simp [likeMatch]⟩
    exact (List.mem_tails _ _).mpr List.nil_suffix
  | cons c q ih =>
    intro suf
    by_cases hc : c = '%'
    · subst hc
      simp only [List.cons_append, likeMatch, if_pos rfl]
      refine List.any_eq_true.mpr ⟨q ++ suf, ?_, ih suf⟩
      exact (List.mem_tails _ _).mpr ⟨['%'], rfl⟩
    · by_cases hu : c = '_' <;>
        simp [List.cons_append, likeMatch, hc, hu, ih suf]

/-- A leading `%` absorbs any prefix prepended before a matching text. -/
theorem likeMatch_percent_cons (p : List Char) (pre t : List Char)
    (h : likeMatch p t = true) : likeMatch ('%' :: p) (pre ++ t) = true := by
  simp only [likeMatch, if_pos rfl]
  exact List.any_eq_true.mpr ⟨t, (List.mem_tails _ _).mpr (List.suffix_append pre t), h⟩

/-- Literal containment implies the `%...%` pattern matches. -/
theorem likeMatch_infix (q t : List Char) (h : q <:+: t) :
    likeMatch ('%' :: (q ++ ['%'])) t = true := by
  obtain ⟨pre, suf, rfl⟩ := h
  rw [List.append_assoc]
  exact likeMatch_percent_cons _ pre _ (likeMatch_append_percent q suf)

/-- Containment of the lowered query in the lowered stored string makes
the `ilike` filter succeed. -/
theorem ilikeContains_of_infix (q s : String)
    (h : lowerChars q <:+: lowerChars s) : ilikeContains q (.jstr s) = true :=
  likeMatch_infix _ _ h

/-- C7: search is a case-insensitive containment match on description
or brand owner (logical OR): a stored Food whose description — or brand
owner — contains the query string up to letter case satisfies the
search filter, and is in the returned list whenever the matching rows
fit the limit; and for the empty query `search_foods` returns exactly
`get_all_foods` (the `list_all` read path) on the same limit. -/
theorem C7_search_case_insensitive (now : Nat) (db : DB) (q : String)
    (limit : Nat) (f : Food)
    (hf : f ∈ db.foods)
    (hmatch : (∃ s, f.description = .jstr s ∧ lowerChars q <:+: lowerChars s) ∨
              (∃ s, f.brand_owner = .jstr s ∧ lowerChars q <:+: lowerChars s)) :
    searchMatch q f = true ∧
    (q ≠ "" → (db.foods.filter (searchMatch q)).length ≤ limit →
      f ∈ (search_foods now db q limit).1) ∧
    (search_foods now db "" limit).1 = get_all_foods db (some limit) none := by
  have hm : searchMatch q f = true := by
    rcases hmatch with ⟨s, hs, hinf⟩ | ⟨s, hs, hinf⟩ <;>
      simp [searchMatch, hs, ilikeContains_of_infix _ _ hinf]
  refine ⟨hm, ?_, by simp [search_foods]⟩
  intro hq hlen
  simp only [search_foods, hq, if_neg hq]
  rw [List.take_of_length_le hlen]
  exact List.mem_filter.mpr ⟨hf, hm⟩

theorem C7_search_case_insensitive_witness :
    sampleFood ∈ sampleDB.foods ∧
    sampleFood.description = .jstr "Organic Whole Milk" ∧
    lowerChars "MILK" <:+: lowerChars "Organic Whole Milk" ∧
    searchMatch "MILK" sampleFood = true ∧
    sampleFood ∈ (search_foods 5 sampleDB "MILK" 50).1 ∧
    (search_foods 5 sampleDB "" 50).1 = get_all_foods sampleDB (some 50) none := by
  have hinf : lowerChars "MILK" <:+: lowerChars "Organic Whole Milk" := by
    refine ⟨"organic whole ".toList, [], ?_⟩
    decide
  have h := C7_search_case_insensitive 5 sampleDB "MILK" 50 sampleFood
    (by decide) (Or.inl ⟨"Organic Whole Milk", by decide, hinf⟩)
  exact ⟨by decide, by decide, hinf, h.1, h.2.1 (by decide) (by decide), h.2.2⟩

/-! ## Claim C8 -/

theorem insertBySavedDesc_perm (f : Food) (l : List Food) :
    List.Perm (insertBySavedDesc f l) (f :: l) := by
  induction l with
  | nil => exact List.Perm.refl _
  | cons g gs ih =>
    simp only [insertBySavedDesc]
    split
    · exact List.Perm.refl _
    · exact (ih.cons g).trans (List.Perm.swap f g gs)

theorem orderBySavedDesc_perm (l : List Food) : List.Perm (orderBySavedDesc l) l := by
  induction l with
  | nil => exact List.Perm.refl _
  | cons f fs ih =>
    exact (insertBySavedDesc_perm f (orderBySavedDesc fs)).trans (ih.cons f)

theorem insertBySavedDesc_sorted (f : Food) (l : List Food)
    (h : l.Pairwise (fun a b => b.saved_at ≤ a.saved_at)) :
    (insertBySavedDesc f l).Pairwise (fun a b => b.saved_at ≤ a.saved_at) := by
  induction l with
  | nil => simp [insertBySavedDesc]
  | cons g gs ih =>
    rw [List.pairwise_cons] at h
    simp only [insertBySavedDesc]
    split
    case isTrue hg =>
      refine List.Pairwise.cons ?_ (List.pairwise_cons.mpr h)
      intro b hb
      rcases List.mem_cons.mp hb with rfl | hb
      · exact le_of_lt hg
      · exact le_trans (h.1 b hb) (le_of_lt hg)
    case isFalse hg =>
      refine List.Pairwise.cons ?_ (ih h.2)
      intro b hb
      rcases List.mem_cons.mp ((insertBySavedDesc_perm f gs).mem_iff.mp hb)
        with rfl | hb
      · exact le_of_not_lt hg
      · exact h.1 b hb

theorem orderBySavedDesc_sorted (l : List Food) :
    (orderBySavedDesc l).Pairwise (fun a b => b.saved_at ≤ a.saved_at) := by
  induction l with
  | nil => simp [orderBySavedDesc]
  | cons f fs ih => exact insertBySavedDesc_sorted f _ ih

/-- The first row by `saved_at` descending is a stored row whose
`saved_at` dominates every stored row. -/
theorem orderBySavedDesc_head_max (l : List Food) (hne : l ≠ []) :
    ∃ f ∈ l, (orderBySavedDesc l).head? = some f ∧
      ∀ g ∈ l, g.saved_at ≤ f.saved_at := by
  have hperm := orderBySavedDesc_perm l
  have hsorted := orderBySavedDesc_sorted l
  cases hh : orderBySavedDesc l with
  | nil =>
    rw [hh] at hperm
    exact absurd hperm.symm.eq_nil hne
  | cons m rest =>
    rw [hh] at hperm hsorted
    rw [List.pairwise_cons] at hsorted
    refine ⟨m, hperm.subset (List.mem_cons_self m rest), by simp, ?_⟩
    intro g hg
    rcases List.mem_cons.mp (hperm.mem_iff.mpr hg) with rfl | hg'
    · exact le_refl _
    · exact hsorted.1 g hg'

/-- C8: `get_database_stats` never propagates a failure. When the
aggregate queries succeed it reports the total Food count, the counts
of distinct brand-owner and classification values, and the `saved_at`
of the most recently saved Food (none exactly when the store is empty);
when any aggregate query raises, it reports all counts zeroed,
`last_saved` null and the error message embedded, instead of raising. -/
theorem C8_stats_graceful (db : DB) (e : String) :
    (get_database_stats (.ok db)).error = none ∧
    (get_database_stats (.ok db)).total_foods = db.foods.length ∧
    (get_database_stats (.ok db)).unique_brands =
      (db.foods.map (·.brand_owner)).toFinset.card ∧
    (get_database_stats (.ok db)).data_types =
      (db.foods.map (·.data_type)).toFinset.card ∧
    ((get_database_stats (.ok db)).last_saved = none ↔ db.foods = []) ∧
    (db.foods ≠ [] →
      ∃ f ∈ db.foods,
        (get_database_stats (.ok db)).last_saved = some f.saved_at ∧
        ∀ g ∈ db.foods, g.saved_at ≤ f.saved_at) ∧
    get_database_stats (.error e) =
      { total_foods := 0, unique_brands := 0, data_types := 0
        last_saved := none, error := some e } := by
  refine ⟨rfl, rfl, (List.card_toFinset _).symm, (List.card_toFinset _).symm,
    ?_, ?_, rfl⟩
  · simp only [get_database_stats, Option.map_eq_none']
    rw [List.head?_eq_none_iff]
    constructor
    · intro h
      have hp := orderBySavedDesc_perm db.foods
      rw [h] at hp
      exact hp.symm.eq_nil
    · intro h
      rw [h]
      rfl
  · intro hne
    obtain ⟨f, hf, hhead, hmax⟩ := orderBySavedDesc_head_max db.foods hne
    exact ⟨f, hf, by simp [get_database_stats, hhead], hmax⟩

theorem C8_stats_graceful_witness :
    sampleDB.foods ≠ [] ∧
    (∃ f ∈ sampleDB.foods,
      (get_database_stats (.ok sampleDB)).last_saved = some f.saved_at ∧
      ∀ g ∈ sampleDB.foods, g.saved_at ≤ f.saved_at) ∧
    get_database_stats (.error "boom") =
      { total_foods := 0, unique_brands := 0, data_types := 0
        last_saved := none, error := some "boom" } := by
  have h := C8_stats_graceful sampleDB "boom"
  exact ⟨by decide, h.2.2.2.2.2.1 (by decide), h.2.2.2.2.2.2⟩

/-! ## Claim C4 -/

/-- C4: `update_food` is restricted to the allow-list. It errors with
no state change when the Food is missing or when a dict input contains
no allowed field; every error outcome leaves the committed state
unchanged; and on the success path only the allowed fields present in
the input, plus the `updated_at` timestamp, change on the stored Food
(every other column — in particular the external identifier and the
classification — is untouched), the other tables are unchanged except
for the committed `update` history row. -/
theorem C4_update_allow_list (now : Nat) (db : DB) (fid : Nat) (upd : JVal) :
    (db.foods.find? (fun g => g.id == fid) = none →
      update_food now db fid upd = (.errNotFound, db, [])) ∧
    (∀ f, db.foods.find? (fun g => g.id == fid) = some f →
      upd.isObj = true →
      (allowedFields.filter (fun k => upd.hasKey k)).isEmpty = true →
      update_food now db fid upd = (.errNoFields, db, [])) ∧
    ((update_food now db fid upd).1.isOk = false →
      (update_food now db fid upd).2.1 = db) ∧
    (∀ f, db.foods.find? (fun g => g.id == fid) = some f →
      upd.isObj = true →
      (allowedFields.filter (fun k => upd.hasKey k)).isEmpty = false →
      (foodBindOk (updatedFood now f upd) &&
        (updatedFood now f upd).description != .jnull) = true →
      update_food now db fid upd =
        (.ok (allowedFields.filter (fun k => upd.hasKey k)) (updatedFood now f upd),
         { db with
           foods := db.foods.map
             (fun g => if g.id == fid then updatedFood now f upd else g)
           history := db.history ++ [mkHist "update" none (some fid) now none] },
         [])) ∧
    (∀ f,
      (updatedFood now f upd).id = f.id ∧
      (updatedFood now f upd).fdc_id = f.fdc_id ∧
      (updatedFood now f upd).data_type = f.data_type ∧
      (updatedFood now f upd).food_category = f.food_category ∧
      (updatedFood now f upd).food_category_id = f.food_category_id ∧
      (updatedFood now f upd).published_date = f.published_date ∧
      (updatedFood now f upd).household_serving_fulltext =
        f.household_serving_fulltext ∧
      (updatedFood now f upd).saved_at = f.saved_at ∧
      (updatedFood now f upd).raw_data = f.raw_data ∧
      (updatedFood now f upd).updated_at = now ∧
      (updatedFood now f upd).description =
        (if upd.hasKey "description" then upd.get "description" else f.description) ∧
      (updatedFood now f upd).brand_owner =
        (if upd.hasKey "brand_owner" then upd.get "brand_owner" else f.brand_owner) ∧
      (updatedFood now f upd).brand_name =
        (if upd.hasKey "brand_name" then upd.get "brand_name" else f.brand_name) ∧
      (updatedFood now f upd).subbrand_name =
        (if upd.hasKey "subbrand_name" then upd.get "subbrand_name" else f.subbrand_name) ∧
      (updatedFood now f upd).ingredients =
        (if upd.hasKey "ingredients" then upd.get "ingredients" else f.ingredients) ∧
      (updatedFood now f upd).market_country =
        (if upd.hasKey "market_country" then upd.get "market_country" else f.market_country) ∧
      (updatedFood now f upd).serving_size =
        (if upd.hasKey "serving_size" then upd.get "serving_size" else f.serving_size) ∧
      (updatedFood now f upd).serving_size_unit =
        (if upd.hasKey "serving_size_unit" then upd.get "serving_size_unit"
         else f.serving_size_unit)) := by
  refine ⟨?_, ?_, ?_, ?_, ?_⟩
  · intro h
    simp [update_food, h]
  · intro f hf hobj hempty
    obtain ⟨fs, rfl⟩ : ∃ fs, upd = .jobj fs := by
      cases upd <;> simp [JVal.isObj] at hobj <;> exact ⟨_, rfl⟩
    simp [update_food, hf, hempty]
  · cases hfind : db.foods.find? (fun g => g.id == fid) with
    | none => simp [update_food, hfind]
    | some f =>
      cases upd with
      | jobj fs =>
        by_cases hempty :
            (allowedFields.filter (fun k => (JVal.jobj fs).hasKey k)).isEmpty
        · simp [update_food, hfind, hempty]
        · by_cases hok : (foodBindOk (updatedFood now f (.jobj fs)) &&
              (updatedFood now f (.jobj fs)).description != .jnull) = true
          · simp [update_food, hfind, hempty, hok, UpdateResult.isOk]
          · simp [update_food, hfind, hempty, hok]
      | jarr xs =>
        simp only [update_food, hfind]
        split <;> simp
      | jstr t =>
        simp only [update_food, hfind]
        split <;> simp
      | jnull => simp [update_food, hfind]
      | jbool b => simp [update_food, hfind]
      | jnum q => simp [update_food, hfind]
  · intro f hf hobj hnonempty hok
    obtain ⟨fs, rfl⟩ : ∃ fs, upd = .jobj fs := by
      cases upd <;> simp [JVal.isObj] at hobj <;> exact ⟨_, rfl⟩
    simp [update_food, hf, hnonempty, hok]
  · intro f
    refine ⟨rfl, rfl, rfl, rfl, rfl, rfl, rfl, rfl, rfl, rfl, ?_, ?_, ?_, ?_,
      ?_, ?_, ?_, ?_⟩ <;>
      simp [updatedFood, applyUpdate]

theorem C4_update_allow_list_witness :
    sampleDB.foods.find? (fun g => g.id == 1) = some sampleFood ∧
    (JVal.jobj [("description", .jstr "Milk"), ("fdc_id", .jnum 999)]).isObj = true ∧
    (allowedFields.filter (fun k =>
      (JVal.jobj [("description", .jstr "Milk"), ("fdc_id", .jnum 999)]).hasKey k)).isEmpty
        = false ∧
    update_food 9 sampleDB 1
        (.jobj [("description", .jstr "Milk"), ("fdc_id", .jnum 999)]) =
      (.ok ["description"]
        (updatedFood 9 sampleFood
          (.jobj [("description", .jstr "Milk"), ("fdc_id", .jnum 999)])),
       { sampleDB with
         foods := sampleDB.foods.map (fun g =>
           if g.id == 1 then
             updatedFood 9 sampleFood
               (.jobj [("description", .jstr "Milk"), ("fdc_id", .jnum 999)])
           else g)
         history := sampleDB.history ++ [mkHist "update" none (some 1) 9 none] },
       []) ∧
    (updatedFood 9 sampleFood
      (.jobj [("description", .jstr "Milk"), ("fdc_id", .jnum 999)])).fdc_id =
        sampleFood.fdc_id ∧
    (updatedFood 9 sampleFood
      (.jobj [("description", .jstr "Milk"), ("fdc_id", .jnum 999)])).description =
        .jstr "Milk" := by
  have h := C4_update_allow_list 9 sampleDB 1
    (.jobj [("description", .jstr "Milk"), ("fdc_id", .jnum 999)])
  refine ⟨by decide, by decide, by decide, ?_, ?_, by decide⟩
  · have h4 := h.2.2.2.1 sampleFood (by decide) (by decide) (by decide) (by decide)
    simpa using h4
  · exact (h.2.2.2.2 sampleFood).2.1

/-! ## Claim C3 -/

/-- Full computation of one ingestion of `nutrientPayload n a` into a
state with no food under external id `n`: the food row is created, the
nutrient reference row 1008 is inserted only if absent, and exactly one
association row is added. -/
theorem ingest_nutrientPayload (pd : String → Option String) (now : Nat)
    (db : DB) (ip : Option String) (n a : ℚ) (hn : n ≠ 0) (ha : a ≠ 0)
    (hf : db.foods.find? (fun f => f.fdc_id == JVal.jnum n) = none) :
    save_food_from_api pd now db (nutrientPayload n a) ip =
      (.saved (createFoodFromApiData pd now db.next_food_id (nutrientPayload n a)),
       { foods := db.foods ++
           [createFoodFromApiData pd now db.next_food_id (nutrientPayload n a)]
         nutrients := db.nutrients ++
           (if (db.nutrients.find? (fun m => m.id == JVal.jnum 1008)).isSome then []
            else [mkNutrient (.jnum 1008)
                   (.jobj [("id", .jnum 1008), ("name", .jstr "Energy"),
                           ("unitName", .jstr "kcal")])])
         food_nutrients := db.food_nutrients ++
           [mkFoodNutrient db.next_food_id (.jnum 1008) a (nutrientEntry1008 a)]
         food_portions := db.food_portions
         history := db.history
         next_food_id := db.next_food_id + 1 },
       [mkHist "save" none (some db.next_food_id) now ip]) := by
  have hn' : (n == 0) = false := beq_eq_false_iff_ne.mpr hn
  have ha' : (a == 0) = false := beq_eq_false_iff_ne.mpr ha
  have hall : db.foods.all (fun g => g.fdc_id != JVal.jnum n) = true := by
    rw [List.all_eq_true]
    intro g hg
    have := List.find?_eq_none.mp hf g hg
    simpa using this
  simp [save_food_from_api, nutrientPayload, nutrientEntry1008, resolveFdcId,
    createFoodFromApiData, saveNutrients, saveNutrientsLoop, savePortions,
    pyIter, nutrientInfo, resolveNutrientId, resolveAmount,
    nutrientEntrySkipped, mkNutrient, mkFoodNutrient, pyFloat, pyOr,
    parsePublished, JVal.truthy, JVal.get, JVal.getD, hn', ha', hf, hall,
    foodBindOk, foodConstraintsOk, scalarOk, nutrientBindOk,
    nutrientConstraintsOk, foodNutrientBindOk, portionBindOk,
    portionConstraintsOk, fnsUnique, hn, ha, List.lookup]

/-- C3: the Nutrient reference table is upserted by nutrient id.
Ingesting two foods with distinct fresh external identifiers whose
payloads both reference nutrient 1008, into any state holding neither a
Nutrient row 1008 nor any association to it, succeeds twice and leaves
exactly one Nutrient row with id 1008 and exactly two association rows
for it — one per new food. -/
theorem C3_nutrient_upsert (pd : String → Option String) (now1 now2 : Nat)
    (db : DB) (ip1 ip2 : Option String) (n1 n2 a1 a2 : ℚ)
    (hn1 : n1 ≠ 0) (hn2 : n2 ≠ 0) (hne : n1 ≠ n2)
    (ha1 : a1 ≠ 0) (ha2 : a2 ≠ 0)
    (hf1 : db.foods.find? (fun f => f.fdc_id == JVal.jnum n1) = none)
    (hf2 : db.foods.find? (fun f => f.fdc_id == JVal.jnum n2) = none)
    (hnut : db.nutrients.find? (fun m => m.id == JVal.jnum 1008) = none)
    (hfn : db.food_nutrients.filter
      (fun fn => fn.nutrient_id == JVal.jnum 1008) = []) :
    ∀ out1 out2,
      out1 = save_food_from_api pd now1 db (nutrientPayload n1 a1) ip1 →
      out2 = save_food_from_api pd now2 out1.2.1 (nutrientPayload n2 a2) ip2 →
      out1.1 = .saved
        (createFoodFromApiData pd now1 db.next_food_id (nutrientPayload n1 a1)) ∧
      out2.1 = .saved
        (createFoodFromApiData pd now2 (db.next_food_id + 1)
          (nutrientPayload n2 a2)) ∧
      out2.2.1.nutrients.countP (fun m => m.id == JVal.jnum 1008) = 1 ∧
      out2.2.1.food_nutrients.countP
        (fun fn => fn.nutrient_id == JVal.jnum 1008) = 2 ∧
      (out2.2.1.food_nutrients.filter
        (fun fn => fn.nutrient_id == JVal.jnum 1008)).map (·.food_id) =
        [db.next_food_id, db.next_food_id + 1] := by
  intro out1 out2 hout1 hout2
  have h1 := ingest_nutrientPayload pd now1 db ip1 n1 a1 hn1 ha1 hf1
  rw [hnut] at h1
  simp only [Option.isSome_none, Bool.false_eq_true, if_false] at h1
  have hF1fdc :
      (createFoodFromApiData pd now1 db.next_food_id
        (nutrientPayload n1 a1)).fdc_id = .jnum n1 := by
    simp [createFoodFromApiData, nutrientPayload, JVal.get, JVal.getD,
      List.lookup, pyOr, JVal.truthy, hn1]
  subst hout1
  rw [h1] at hout2 ⊢
  have hf2' : (db.foods ++
      [createFoodFromApiData pd now1 db.next_food_id
        (nutrientPayload n1 a1)]).find?
      (fun f => f.fdc_id == JVal.jnum n2) = none := by
    rw [List.find?_append, hf2, Option.none_or]
    simp [hF1fdc, hne]
  have h2 := ingest_nutrientPayload pd now2
    { foods := db.foods ++
        [createFoodFromApiData pd now1 db.next_food_id (nutrientPayload n1 a1)]
      nutrients := db.nutrients ++
        [mkNutrient (.jnum 1008)
          (.jobj [("id", .jnum 1008), ("name", .jstr "Energy"),
                  ("unitName", .jstr "kcal")])]
      food_nutrients := db.food_nutrients ++
        [mkFoodNutrient db.next_food_id (.jnum 1008) a1 (nutrientEntry1008 a1)]
      food_portions := db.food_portions
      history := db.history
      next_food_id := db.next_food_id + 1 }
    ip2 n2 a2 hn2 ha2 hf2'
  have hnut2 : ((db.nutrients ++
      [mkNutrient (.jnum 1008)
        (.jobj [("id", .jnum 1008), ("name", .jstr "Energy"),
                ("unitName", .jstr "kcal")])]).find?
      (fun m => m.id == JVal.jnum 1008)).isSome = true := by
    rw [List.find?_isSome]
    exact ⟨_, List.mem_append_right _ (List.mem_singleton_self _),
      by simp [mkNutrient]⟩
  rw [hnut2] at h2
  simp only [if_true] at h2
  rw [hout2, h2]
  have hcount0 : db.nutrients.countP (fun m => m.id == JVal.jnum 1008) = 0 :=
    List.countP_eq_zero.mpr (fun m hm => by
      simpa using List.find?_eq_none.mp hnut m hm)
  refine ⟨rfl, rfl, ?_, ?_, ?_⟩
  · simp [List.countP_append, hcount0, mkNutrient]
  · have hc0 : db.food_nutrients.countP
        (fun fn => fn.nutrient_id == JVal.jnum 1008) = 0 := by
      rw [List.countP_eq_length_filter, hfn]
      rfl
    simp [List.countP_append, hc0, mkFoodNutrient]
  · simp [List.filter_append, hfn, mkFoodNutrient]

theorem C3_nutrient_upsert_witness :
    (save_food_from_api (fun _ => none) 2
      (save_food_from_api (fun _ => none) 1 DB.empty
        (nutrientPayload 101 52) none).2.1
      (nutrientPayload 202 47) none).2.1.nutrients.countP
        (fun m => m.id == JVal.jnum 1008) = 1 ∧
    (save_food_from_api (fun _ => none) 2
      (save_food_from_api (fun _ => none) 1 DB.empty
        (nutrientPayload 101 52) none).2.1
      (nutrientPayload 202 47) none).2.1.food_nutrients.countP
        (fun fn => fn.nutrient_id == JVal.jnum 1008) = 2 ∧
    ((save_food_from_api (fun _ => none) 2
      (save_food_from_api (fun _ => none) 1 DB.empty
        (nutrientPayload 101 52) none).2.1
      (nutrientPayload 202 47) none).2.1.food_nutrients.filter
        (fun fn => fn.nutrient_id == JVal.jnum 1008)).map (·.food_id) =
      [1, 2] := by
  have h := C3_nutrient_upsert (fun _ => none) 1 2 DB.empty none none
    101 202 52 47 (by norm_num) (by norm_num) (by norm_num)
    (by norm_num) (by norm_num) rfl rfl rfl rfl
    _ _ rfl rfl
  exact ⟨h.2.2.1, h.2.2.2.1, h.2.2.2.2⟩

/-! ## Claim C6 (corrected) -/

/-- C6 as stated is false: the entry `zeroAmountEntry` has a truthy
nutrient identifier (5) and a numeric amount (the JSON number `0` under
the `amount` key), so by the claim it must produce exactly one
association row; but ingesting `zeroAmountPayload` (whose only nutrient
entry it is) succeeds while creating zero association rows — the entry
is skipped, because Python's `amount or value` treats the numeric `0`
as absent. -/
theorem C6_skip_iff_counterexample :
    entryHasIdAndNumericAmount zeroAmountEntry = true ∧
    (save_food_from_api (fun _ => none) 0 DB.empty zeroAmountPayload none).1 =
      .saved (createFoodFromApiData (fun _ => none) 0 1 zeroAmountPayload) ∧
    (save_food_from_api (fun _ => none) 0 DB.empty
      zeroAmountPayload none).2.1.food_nutrients = [] := by
  exact ⟨by decide, by decide, by decide⟩

/-- One step of the `_save_nutrients` loop on a skipped entry. -/
theorem saveNutrientsLoop_cons_skip (fid : Nat) (allN news : List Nutrient)
    (fns : List FoodNutrient) (efs ifs : List (String × JVal)) (es : List JVal)
    (hif : nutrientInfo (.jobj efs) = .jobj ifs)
    (hsk : nutrientEntrySkipped (.jobj efs) = true) :
    saveNutrientsLoop fid allN news fns (.jobj efs :: es) =
      saveNutrientsLoop fid allN news fns es := by
  simp only [saveNutrientsLoop, hif, hsk, if_true]

/-- One step of the `_save_nutrients` loop on a kept entry with
convertible amount. -/
theorem saveNutrientsLoop_cons_kept (fid : Nat) (allN news : List Nutrient)
    (fns : List FoodNutrient) (efs ifs : List (String × JVal)) (es : List JVal)
    (q : ℚ)
    (hif : nutrientInfo (.jobj efs) = .jobj ifs)
    (hsk : nutrientEntrySkipped (.jobj efs) = false)
    (hq : pyFloat (resolveAmount (.jobj efs)) = some q) :
    saveNutrientsLoop fid allN news fns (.jobj efs :: es) =
      saveNutrientsLoop fid
        (allN ++
          (if (allN.find? (fun m =>
              m.id == resolveNutrientId (.jobj efs))).isSome then []
           else [mkNutrient (resolveNutrientId (.jobj efs)) (.jobj ifs)]))
        (news ++
          (if (allN.find? (fun m =>
              m.id == resolveNutrientId (.jobj efs))).isSome then []
           else [mkNutrient (resolveNutrientId (.jobj efs)) (.jobj ifs)]))
        (fns ++ [mkFoodNutrient fid (resolveNutrientId (.jobj efs)) q
                  (.jobj efs)])
        es := by
  simp only [saveNutrientsLoop, hif, hsk, hq, if_false, Bool.false_eq_true]

/-- C6 amended: a nutrient entry is skipped iff the code's resolution —
`nutrient.id` falling back to `nutrientId` for the identifier, `amount`
falling back to `value` for the amount, both read with Python
truthiness — yields no truthy identifier or no amount (in particular a
numeric `0` amount under `amount` with no `value` key, or a `0`
identifier, count as absent). Every non-skipped entry whose resolved
amount is float-convertible produces exactly one association row;
skipping is silent and the loop (and the ingestion) succeeds provided
every non-skipped amount is convertible — a truthy non-convertible
amount instead aborts the whole ingestion. The spec's example still
holds: a payload with one entry missing an amount and one valid entry
yields exactly one association row. -/
theorem C6_skip_iff_amended :
    (∀ (es : List JVal) (fid : Nat) (allN news : List Nutrient)
        (fns : List FoodNutrient),
      (∀ e ∈ es, e.isObj = true ∧ (nutrientInfo e).isObj = true) →
      (∀ e ∈ es, nutrientEntrySkipped e = false →
        (pyFloat (resolveAmount e)).isSome = true) →
      ∃ news2 fns2,
        saveNutrientsLoop fid allN news fns es = some (news2, fns2) ∧
        fns2.length = fns.length +
          (es.filter (fun e => !nutrientEntrySkipped e)).length) ∧
    (save_food_from_api (fun _ => none) 0 DB.empty partialPayload none).1 =
      .saved (createFoodFromApiData (fun _ => none) 0 1 partialPayload) ∧
    (save_food_from_api (fun _ => none) 0 DB.empty
      partialPayload none).2.1.food_nutrients.length = 1 := by
  refine ⟨?_, by decide, by decide⟩
  intro es
  induction es with
  | nil =>
    intro fid allN news fns _ _
    exact ⟨news, fns, rfl, by simp⟩
  | cons e es ih =>
    intro fid allN news fns hwf hconv
    obtain ⟨he, hinfo⟩ := hwf e (List.mem_cons_self e es)
    obtain ⟨efs, rfl⟩ : ∃ efs, e = JVal.jobj efs := by
      cases e <;> simp [JVal.isObj] at he <;> exact ⟨_, rfl⟩
    obtain ⟨ifs, hif⟩ : ∃ ifs, nutrientInfo (JVal.jobj efs) = JVal.jobj ifs := by
      cases hi : nutrientInfo (JVal.jobj efs) <;>
        rw [hi] at hinfo <;> simp [JVal.isObj] at hinfo <;> exact ⟨_, rfl⟩
    have hwf' : ∀ x ∈ es, x.isObj = true ∧ (nutrientInfo x).isObj = true :=
      fun x hx => hwf x (List.mem_cons_of_mem _ hx)
    have hconv' : ∀ x ∈ es, nutrientEntrySkipped x = false →
        (pyFloat (resolveAmount x)).isSome = true :=
      fun x hx => hconv x (List.mem_cons_of_mem _ hx)
    cases hsk : nutrientEntrySkipped (JVal.jobj efs) with
    | true =>
      obtain ⟨news2, fns2, hloop, hlen⟩ := ih fid allN news fns hwf' hconv'
      refine ⟨news2, fns2, ?_, ?_⟩
      · rw [saveNutrientsLoop_cons_skip fid allN news fns efs ifs es hif hsk]
        exact hloop
      · rw [hlen, List.filter_cons_of_neg (by simp [hsk])]
    | false =>
      obtain ⟨q, hq⟩ := Option.isSome_iff_exists.mp
        (hconv _ (List.mem_cons_self _ _) hsk)
      obtain ⟨news2, fns2, hloop, hlen⟩ :=
        ih fid
          (allN ++
            (if (allN.find? (fun m =>
                m.id == resolveNutrientId (.jobj efs))).isSome then []
             else [mkNutrient (resolveNutrientId (.jobj efs)) (.jobj ifs)]))
          (news ++
            (if (allN.find? (fun m =>
                m.id == resolveNutrientId (.jobj efs))).isSome then []
             else [mkNutrient (resolveNutrientId (.jobj efs)) (.jobj ifs)]))
          (fns ++ [mkFoodNutrient fid (resolveNutrientId (.jobj efs)) q
                    (.jobj efs)])
          hwf' hconv'
      refine ⟨news2, fns2, ?_, ?_⟩
      · rw [saveNutrientsLoop_cons_kept fid allN news fns efs ifs es q
          hif hsk hq]
        exact hloop
      · rw [hlen, List.filter_cons_of_pos (by simp [hsk])]
        simp [Nat.add_comm, Nat.add_assoc, Nat.add_left_comm]

theorem C6_skip_iff_amended_witness :
    (∀ e ∈ [zeroAmountEntry], e.isObj = true ∧ (nutrientInfo e).isObj = true) ∧
    (∀ e ∈ [zeroAmountEntry], nutrientEntrySkipped e = false →
      (pyFloat (resolveAmount e)).isSome = true) ∧
    (∃ news2 fns2,
      saveNutrientsLoop 1 [] [] [] [zeroAmountEntry] = some (news2, fns2) ∧
      fns2.length = ([] : List FoodNutrient).length +
        ([zeroAmountEntry].filter
          (fun e => !nutrientEntrySkipped e)).length) := by
  refine ⟨by decide, by decide, ?_⟩
  exact (C6_skip_iff_amended).1 [zeroAmountEntry] 1 [] [] []
    (by decide) (by decide)
